import Mathlib

/-
Shallow embedding of the brother_ql_app label-printer application:
  * src/src/config/default_settings.py      (DEFAULT_SETTINGS)
  * src/src/services/settings_service.py    (SettingsService: load, validate, save, update)
  * src/src/services/printer_service.py     (text-label layout, QR side-by-side layout,
                                             keep-alive start/stop and worker backoff)
Settings dictionaries are embedded as functions from keys to optional values;
the value universe covers the JSON shapes the application stores.  Machine
integers are exact in Python, so plain Int/Nat are used.
-/

namespace BrotherQL

/-- Primitive JSON values appearing in a settings document (strings, numbers,
booleans).  Numeric values are modelled by their integer value; the defaults
file stores `threshold` as the float `70.0`, value-equal to `70`. -/
inductive PrimValue where
  | str (s : String)
  | num (n : Int)
  | boolean (b : Bool)
  deriving DecidableEq

/-- A printer entry of the `printers` list: a JSON object, embedded as an
association list of field names to primitive values. -/
def PrinterDict : Type := List (String × PrimValue)

instance : DecidableEq PrinterDict := by
  unfold PrinterDict
  infer_instance

/-- A value stored at a top-level settings key: either a primitive or the
`printers` list of printer objects. -/
inductive SettingValue where
  | prim (v : PrimValue)
  | printerList (l : List PrinterDict)
  deriving DecidableEq

/-- A settings dictionary: total lookup function from keys to optional values
(the extensional semantics of a Python dict). -/
def SMap : Type := String → Option SettingValue

/-- Python `d[k] = v` (dict item assignment). -/
def setKey (m : SMap) (k : String) (v : SettingValue) : SMap :=
  fun k' => if k' = k then some v else m k'

/-- Python `d.update(e)`: every key of `e` overwrites the entry of `d`. -/
def dictUpdate (d e : SMap) : SMap :=
  fun k =>
    match e k with
    | some v => some v
    | none => d k

/-- Lookup in a printer object (Python dicts have unique keys, so first match). -/
def plookup : PrinterDict → String → Option PrimValue
  | [], _ => none
  | (k, v) :: rest, f => if k = f then some v else plookup rest f

/-- The default printer entry of DEFAULT_SETTINGS (default_settings.py lines 19-27). -/
def defaultPrinter : PrinterDict :=
  [("id", PrimValue.str "default"),
   ("name", PrimValue.str "Default Printer"),
   ("printer_uri", PrimValue.str "tcp://192.168.1.100"),
   ("printer_model", PrimValue.str "QL-800"),
   ("label_size", PrimValue.str "62")]

/-- DEFAULT_SETTINGS (default_settings.py lines 6-28). -/
def defaultSettings : SMap := fun k =>
  if k = "printer_uri" then some (SettingValue.prim (PrimValue.str "tcp://192.168.1.100"))
  else if k = "printer_model" then some (SettingValue.prim (PrimValue.str "QL-800"))
  else if k = "label_size" then some (SettingValue.prim (PrimValue.str "62"))
  else if k = "font_size" then some (SettingValue.prim (PrimValue.num 50))
  else if k = "alignment" then some (SettingValue.prim (PrimValue.str "left"))
  else if k = "rotate" then some (SettingValue.prim (PrimValue.num 0))
  else if k = "threshold" then some (SettingValue.prim (PrimValue.num 70))
  else if k = "dither" then some (SettingValue.prim (PrimValue.boolean false))
  else if k = "compress" then some (SettingValue.prim (PrimValue.boolean false))
  else if k = "red" then some (SettingValue.prim (PrimValue.boolean false))
  else if k = "keep_alive_enabled" then some (SettingValue.prim (PrimValue.boolean false))
  else if k = "keep_alive_interval" then some (SettingValue.prim (PrimValue.num 60))
  else if k = "printers" then some (SettingValue.printerList [defaultPrinter])
  else none

/-- State of the settings file on disk.  `corrupt` covers an unreadable file,
invalid JSON, and a document that is not a mapping: `_load_settings` treats
all of them alike (settings_service.py lines 63-79). -/
inductive Disk where
  | missing
  | corrupt
  | stored (m : SMap)

/-- `SettingsService._load_settings` (settings_service.py lines 52-79): a stored
mapping is overlaid on a deep copy of the defaults; a missing or corrupt file
yields the defaults.  `get_settings` just calls this. -/
def loadS : Disk → SMap
  | Disk.missing => defaultSettings
  | Disk.corrupt => defaultSettings
  | Disk.stored m => dictUpdate defaultSettings m

/- ---------- validation (settings_service.py `_validate_settings`) ---------- -/

/-- `isinstance(x, str)` for an optionally-present field. -/
def hasTypeStr : Option SettingValue → Bool
  | none => true
  | some (SettingValue.prim (PrimValue.str _)) => true
  | some _ => false

/-- `isinstance(x, (int, float))`; Python booleans are integers, so they pass. -/
def hasTypeNum : Option SettingValue → Bool
  | none => true
  | some (SettingValue.prim (PrimValue.num _)) => true
  | some (SettingValue.prim (PrimValue.boolean _)) => true
  | some _ => false

/-- `isinstance(x, bool)`. -/
def hasTypeBool : Option SettingValue → Bool
  | none => true
  | some (SettingValue.prim (PrimValue.boolean _)) => true
  | some _ => false

/-- `isinstance(x, list)`; the only list shape in the value universe is the
printers list. -/
def hasTypeList : Option SettingValue → Bool
  | none => true
  | some (SettingValue.printerList _) => true
  | some _ => false

/-- The `type_checks` table (settings_service.py lines 91-101). -/
def typeChecksOK (s : SMap) : Bool :=
  hasTypeStr (s "printer_uri") && hasTypeStr (s "printer_model") &&
  hasTypeStr (s "label_size") && hasTypeNum (s "font_size") &&
  hasTypeStr (s "alignment") && hasTypeNum (s "rotate") &&
  hasTypeNum (s "threshold") && hasTypeBool (s "dither") &&
  hasTypeBool (s "compress") && hasTypeBool (s "red") &&
  hasTypeBool (s "keep_alive_enabled") && hasTypeNum (s "keep_alive_interval") &&
  hasTypeList (s "printers")

/-- ASCII whitespace removed by Python `str.strip()`. -/
def isSpaceChar (c : Char) : Bool :=
  c == ' ' || c == '\t' || c == '\n' || c == '\r' || c == '\x0b' || c == '\x0c'

/-- `not s.strip()`: the string is empty or all whitespace. -/
def stripEmpty (s : String) : Bool := s.data.all isSpaceChar

/-- A required field must be present and, when a string, non-empty after strip
(settings_service.py lines 104-110). -/
def requiredFieldOK (v : Option SettingValue) : Bool :=
  match v with
  | none => false
  | some (SettingValue.prim (PrimValue.str t)) => !(stripEmpty t)
  | some _ => true

def requiredOK (s : SMap) : Bool :=
  requiredFieldOK (s "printer_uri") && requiredFieldOK (s "printer_model") &&
  requiredFieldOK (s "label_size")

/-- `settings["alignment"] in ["left", "center", "right"]`; a non-string value
is never in that list (settings_service.py lines 113-114). -/
def alignmentOK : Option SettingValue → Bool
  | none => true
  | some (SettingValue.prim (PrimValue.str a)) =>
      a == "left" || a == "center" || a == "right"
  | some _ => false

/-- Numeric view of a value for Python comparisons; Python booleans are the
integers 0 and 1. -/
def numValue : SettingValue → Option Int
  | SettingValue.prim (PrimValue.num n) => some n
  | SettingValue.prim (PrimValue.boolean b) => some (if b then 1 else 0)
  | _ => none

/-- `settings["rotate"] in [0, 90, 180, 270]` (settings_service.py lines 116-117). -/
def rotateOK : Option SettingValue → Bool
  | none => true
  | some x =>
      match numValue x with
      | some n => n == 0 || n == 90 || n == 180 || n == 270
      | none => false

/-- `0 <= settings["threshold"] <= 100` (settings_service.py lines 119-120).
A non-numeric value makes the comparison raise, so the save fails either way. -/
def thresholdOK : Option SettingValue → Bool
  | none => true
  | some x =>
      match numValue x with
      | some n => decide (0 ≤ n) && decide (n ≤ 100)
      | none => false

/-- Python truthiness of a stored value. -/
def truthy : SettingValue → Bool
  | SettingValue.prim (PrimValue.str t) => !(t == "")
  | SettingValue.prim (PrimValue.num n) => !(n == 0)
  | SettingValue.prim (PrimValue.boolean b) => b
  | SettingValue.printerList l => !l.isEmpty

/-- Python `s.startswith(p)`, structurally over the character lists. -/
def strStarts (s p : String) : Bool := p.data.isPrefixOf s.data

/-- `brother_ql.backends.guess_backend` (third-party dependency, not part of
this repository): the URI scheme decides the backend; `tcp://` is the network
backend, `usb://` the USB one, `file://` and device paths the kernel one, and
an unrecognised identifier raises (modelled as `none`). -/
def uriBackend (uri : String) : Option String :=
  if strStarts uri "usb://" || strStarts uri "0x" then some "pyusb"
  else if strStarts uri "file://" || strStarts uri "/dev/usb/" then some "linux_kernel"
  else if strStarts uri "tcp://" then some "network"
  else none

/-- The string stored at a key, or `""` when absent or not a string. -/
def getString (s : SMap) (k : String) : String :=
  match s k with
  | some (SettingValue.prim (PrimValue.str t)) => t
  | _ => ""

/-- The keep-alive block (settings_service.py lines 122-132): when
`keep_alive_enabled` is truthy, the interval must be present, at least 10, and
the printer URI must resolve to the network backend.  A missing or non-string
URI makes `guess_backend` raise, which also fails the save. -/
def keepAliveOK (s : SMap) : Bool :=
  if (match s "keep_alive_enabled" with | some v => truthy v | none => false) then
    match s "keep_alive_interval" with
    | none => false
    | some v =>
        match numValue v with
        | none => false
        | some i =>
            if i < 10 then false
            else
              match s "printer_uri" with
              | some (SettingValue.prim (PrimValue.str u)) => uriBackend u == some "network"
              | _ => false
  else true

/-- A printer entry field must be present and, when a string, non-empty after
strip (settings_service.py lines 141-146). -/
def printerFieldOK (p : PrinterDict) (f : String) : Bool :=
  match plookup p f with
  | none => false
  | some (PrimValue.str t) => !(stripEmpty t)
  | some _ => true

def printerOK (p : PrinterDict) : Bool :=
  printerFieldOK p "id" && printerFieldOK p "printer_uri" &&
  printerFieldOK p "printer_model" && printerFieldOK p "label_size"

/-- The printers-list block (settings_service.py lines 134-146): when present
it must be non-empty and every entry well-formed.  (A non-list value is
already rejected by the type checks.) -/
def printersOK : Option SettingValue → Bool
  | none => true
  | some (SettingValue.printerList l) => !l.isEmpty && l.all printerOK
  | some _ => true

/-- `SettingsService._validate_settings` as a Boolean: the conjunction of the
checks in source order; the function raises at the first failing one. -/
def validateSettings (s : SMap) : Bool :=
  typeChecksOK s && requiredOK s && alignmentOK (s "alignment") &&
  rotateOK (s "rotate") && thresholdOK (s "threshold") &&
  keepAliveOK s && printersOK (s "printers")

/-- File-system operations performed on the settings path by a save. -/
inductive FileOp where
  | writeTemp
  | rename
  deriving DecidableEq

/-- `SettingsService.save_settings` (settings_service.py lines 150-211):
validation happens before any file operation; on failure the result is False
and the disk is untouched.  On success the temp file is written and renamed
over the destination, which then holds exactly the saved document.  (I/O
errors in the write path are outside this model.) -/
def save_settings (s : SMap) (disk : Disk) : Bool × Disk × List FileOp :=
  if validateSettings s then (true, Disk.stored s, [FileOp.writeTemp, FileOp.rename])
  else (false, disk, [])

/-- `SettingsService.update_settings` (settings_service.py lines 224-256):
reload from disk, overlay the partial update, save the merged document. -/
def update_settings (P : SMap) (disk : Disk) : Bool × Disk :=
  let merged := dictUpdate (loadS disk) P
  let r := save_settings merged disk
  (r.1, r.2.1)

/- ---------- text-label layout (printer_service.py `_create_text_label`) ---------- -/

/-- A token emitted by the HTML text parser (printer_service.py lines 239-255):
either a `<br>` tag or a run of character data. -/
inductive TextPart where
  | br
  | text (s : String)
  deriving DecidableEq

/-- The line-assembly loop (printer_service.py lines 257-267): data runs are
joined into the current line; each `<br>` closes a line; a non-empty trailing
line is appended. -/
def assembleLines (parts : List TextPart) : List String :=
  let r := parts.foldl
    (fun (acc : List String × List String) (p : TextPart) =>
      match p with
      | TextPart.br => (acc.1 ++ [String.join acc.2], [])
      | TextPart.text s => (acc.1, acc.2 ++ [s]))
    ([], [])
  if r.2.isEmpty then r.1 else r.1 ++ [String.join r.2]

/-- The parts the stdlib HTMLParser produces for the input "Hello<br>World":
data "Hello", start tag br, data "World". -/
def helloWorldParts : List TextPart :=
  [TextPart.text "Hello", TextPart.br, TextPart.text "World"]

/-- The image-height computation (printer_service.py lines 279-293): a top
margin of 10, then `line_height + 5` per line, then a bottom margin of 10.
Line heights come from the font metrics and enter as parameters. -/
def textLabelHeight (lineHeights : List Nat) : Nat :=
  (lineHeights.foldl (fun acc h => acc + (h + 5)) 10) + 10

/-- The height formula as the spec states it: the same sum, but with the final
line's extra inter-line spacing (5) not counted.  Kept for comparison with
`textLabelHeight`, which embeds the source. -/
def textLabelHeightSpec (lineHeights : List Nat) : Nat :=
  10 + (lineHeights.map (fun h => h + 5)).sum + 10 - 5

/-- The horizontal draw offset of one line (printer_service.py lines 300-305);
the canvas width is fixed at 696 and Python `//` is floor division. -/
def lineX (alignment : String) (line_width : Nat) : Int :=
  if alignment = "center" then Int.fdiv (696 - (line_width : Int)) 2
  else if alignment = "right" then 696 - (line_width : Int) - 10
  else 10

/-- The draw loop (printer_service.py lines 298-307): metrics are
`(line_height, line_width)` pairs; `y` starts at 10 and advances by
`line_height + 5` per line. -/
def drawPositionsFrom (alignment : String) (y : Int) : List (Nat × Nat) → List (Int × Int)
  | [] => []
  | (h, w) :: rest => (lineX alignment w, y) :: drawPositionsFrom alignment (y + h + 5) rest

def drawPositions (alignment : String) (metrics : List (Nat × Nat)) : List (Int × Int) :=
  drawPositionsFrom alignment 10 metrics

/- ---------- QR side-by-side layout (printer_service.py `_create_qr_code`) ---------- -/

/-- The geometry computed for the side-by-side composition
(printer_service.py lines 698-726). -/
structure SideBySideLayout where
  total_width : Nat
  text_area_width : Nat
  qr_area_width : Nat
  qr_size : Nat × Nat
  total_height : Nat
  qr_x : Nat
  text_area_x : Nat
  deriving DecidableEq

/-- The side-by-side branch (printer_service.py lines 698-726), taken when
`side_by_side` is set and `side_text` is non-empty: padding 20, total width
floored at 696, the text area is `int(total_width * 2/3)` minus its two pads,
the QR area the rest minus three pads; the QR image is resized to a square of
the QR area's width; `qr_position = "left"` puts the QR column left, anything
else right. -/
def sideBySideLayout (qr_width max_text_width total_text_height : Nat)
    (qr_position : String) : SideBySideLayout :=
  let padding := 20
  let total_width := max (qr_width + max_text_width + padding * 3) 696
  let text_area_width := total_width * 2 / 3 - padding * 2
  let qr_area_width := total_width - text_area_width - padding * 3
  let total_height := max qr_area_width total_text_height + padding * 2
  let qr_x := if qr_position = "left" then padding else text_area_width + padding * 2
  let text_area_x := if qr_position = "left" then qr_area_width + padding * 2 else padding
  { total_width := total_width
    text_area_width := text_area_width
    qr_area_width := qr_area_width
    qr_size := (qr_area_width, qr_area_width)
    total_height := total_height
    qr_x := qr_x
    text_area_x := text_area_x }

/- ---------- keep-alive (printer_service.py) ---------- -/

/-- Outcome of one probe attempt of the keep-alive worker.  `backendFailure`:
the SNMP and TCP pings return False and the fallback backend connection
raises, handled at printer_service.py lines 1064-1070, whose `continue`
skips the end-of-loop wait.  `exceptionFailure`: an exception reaches the
outer handler (lines 1073-1091), after which the end-of-loop wait runs. -/
inductive ProbeOutcome where
  | success
  | backendFailure
  | exceptionFailure
  deriving DecidableEq

/-- `min(interval * (2 ** consecutive_failures), 300)` (printer_service.py
line 1031). -/
def backoffTime (interval : Int) (cf : Nat) : Int :=
  min (interval * 2 ^ cf) 300

/-- The wait at the top of an iteration (printer_service.py lines 1029-1037):
with failures pending, `stop_event.wait(backoff_time - interval)`; a
non-positive timeout returns immediately. -/
def headWait (interval : Int) (cf : Nat) : Int :=
  if 0 < cf then max (backoffTime interval cf - interval) 0 else 0

/-- The wait at the bottom of an iteration (printer_service.py line 1094),
skipped by the `continue` of the backend-failure path (line 1070). -/
def tailWait (interval : Int) : ProbeOutcome → Int
  | ProbeOutcome.backendFailure => 0
  | _ => interval

/-- The failure counter after a probe: reset on success, incremented on
either failure path (printer_service.py lines 1044, 1048, 1063, 1069, 1075). -/
def nextFailures (cf : Nat) : ProbeOutcome → Nat
  | ProbeOutcome.success => 0
  | _ => cf + 1

/-- The failure counter after a sequence of probes, starting from `cf`. -/
def failuresAfter (cf : Nat) : List ProbeOutcome → Nat
  | [] => cf
  | o :: rest => failuresAfter (nextFailures cf o) rest

/-- The effective wall-clock wait between a probe (made with `cf` failures on
the counter, ending with outcome `o`) and the next probe attempt: the tail
wait of the current iteration plus the head wait of the next. -/
def probeSpacing (interval : Int) (cf : Nat) (o : ProbeOutcome) : Int :=
  tailWait interval o + headWait interval (nextFailures cf o)

/-- Keep-alive controller state: the settings file and whether a worker
thread is running. -/
structure KAState where
  disk : Disk
  running : Bool

/-- The printer URI or model of the first entry of the printers list, or ""
(printer_service.py lines 460-463 and 468-471). -/
def firstPrinterStr (settings : SMap) (field : String) : String :=
  match settings "printers" with
  | some (SettingValue.printerList (p :: _)) =>
      match plookup p field with
      | some (PrimValue.str s) => s
      | _ => ""
  | _ => ""

/-- Argument resolution of `start_keep_alive` (printer_service.py lines
452-471): an explicit argument wins; otherwise the settings value; when that
is empty, the first printer entry.  The relevant settings values are strings
in this embedding's value universe. -/
def resolveField (arg : Option String) (settings : SMap) (key : String) : String :=
  match arg with
  | some u => u
  | none =>
      match settings key with
      | some (SettingValue.prim (PrimValue.str s)) =>
          if s = "" then firstPrinterStr settings key else s
      | _ => firstPrinterStr settings key

/-- `PrinterService.start_keep_alive` (printer_service.py lines 440-519):
resolve URI and model (failing the call when either is empty), stop any
running worker, start a new one, set `keep_alive_enabled`/`keep_alive_interval`
on the settings dict and hand it to `update_settings` — whose Boolean result
the source discards — then report success. -/
def start_keep_alive (uriArg modelArg : Option String) (interval : Int)
    (st : KAState) : Bool × KAState :=
  let settings := loadS st.disk
  let uri := resolveField uriArg settings "printer_uri"
  let model := resolveField modelArg settings "printer_model"
  if uri = "" then (false, st)
  else if model = "" then (false, st)
  else
    let settings' := setKey (setKey settings "keep_alive_enabled"
        (SettingValue.prim (PrimValue.boolean true)))
      "keep_alive_interval" (SettingValue.prim (PrimValue.num interval))
    let r := update_settings settings' st.disk
    (true, ⟨r.2, true⟩)

/-- `PrinterService.stop_keep_alive` (printer_service.py lines 521-550): with
a live worker, signal it and report success; otherwise report success and
change nothing. -/
def stop_keep_alive (st : KAState) : Bool × KAState :=
  if st.running then (true, ⟨st.disk, false⟩) else (true, st)

/- ---------- example documents (used by witnesses) ---------- -/

/-- A one-key document overriding `font_size` with 60. -/
def exampleOverride : SMap := fun k =>
  if k = "font_size" then some (SettingValue.prim (PrimValue.num 60)) else none

/- ---------- helper lemmas ---------- -/

theorem dictUpdate_apply (d e : SMap) (k : String) :
    dictUpdate d e k = match e k with | some v => some v | none => d k := rfl

theorem loadS_stored (m : SMap) (k : String) :
    loadS (Disk.stored m) k = dictUpdate defaultSettings m k := rfl

/-- A key with no value after a load has no default either. -/
theorem loadS_eq_none (d : Disk) (k : String) (h : loadS d k = none) :
    defaultSettings k = none := by
  cases d with
  | missing => exact h
  | corrupt => exact h
  | stored m =>
      have h' : dictUpdate defaultSettings m k = none := h
      rw [dictUpdate_apply] at h'
      cases hm : m k with
      | some v => rw [hm] at h'; cases h'
      | none => rw [hm] at h'; exact h'

theorem foldl_height_shift (hs : List Nat) :
    ∀ n : Nat, hs.foldl (fun acc h => acc + (h + 5)) n
      = n + (hs.map (fun h => h + 5)).sum := by
  induction hs with
  | nil => intro n; simp
  | cons h t ih => intro n; simp only [List.foldl, List.map, List.sum_cons, ih]; omega

theorem drawPositionsFrom_map_fst (a : String) :
    ∀ (ms : List (Nat × Nat)) (y : Int),
      (drawPositionsFrom a y ms).map Prod.fst = ms.map (fun m => lineX a m.2) := by
  intro ms
  induction ms with
  | nil => intro y; rfl
  | cons m t ih =>
      intro y
      cases m with
      | mk h w => simp only [drawPositionsFrom, List.map, ih]

/- ---------- claims ---------- -/

/-- C1: the keep-alive worker's own design comment (printer_service.py line
1036) subtracts the interval from the backoff "because we'll wait again at
the end", aiming at an effective spacing of `min(interval * 2^cf, 300)`.  On
the realistic failure path — SNMP and TCP pings return False and the fallback
backend raises — the `continue` at line 1070 skips that end-of-loop wait, so
after 3 consecutive failures with interval 60 the wait before the next probe
is 300 - 60 = 240 seconds, not the 300 the claim (and the code's comment)
state.  Only the outer-exception path realises the intended 300. -/
theorem C1_backoff_eval :
    probeSpacing 60 (failuresAfter 0
        [ProbeOutcome.backendFailure, ProbeOutcome.backendFailure])
      ProbeOutcome.backendFailure = 240 ∧
    probeSpacing 60 2 ProbeOutcome.exceptionFailure = 300 ∧
    backoffTime 60 3 = 300 := by
  refine ⟨by decide, by decide, by decide⟩

/-- C4 counterexample: for a single rendered line of height 40 the code
produces an image of height 10 + (40 + 5) + 10 = 65, while the claimed
formula (final inter-line spacing not counted) gives 60. -/
theorem C4_height_counterexample :
    textLabelHeight [40] ≠ textLabelHeightSpec [40] := by decide

/-- C4 (amended): for every non-empty list of rendered lines the image height
equals top margin 10 plus the sum over lines of (line height + spacing 5)
plus bottom margin 10 — the trailing spacing after the last line IS counted. -/
theorem C4_height_amended (hs : List Nat) (_h : hs ≠ []) :
    textLabelHeight hs = 10 + (hs.map (fun x => x + 5)).sum + 10 := by
  unfold textLabelHeight
  rw [foldl_height_shift]

theorem C4_height_witness :
    [40] ≠ ([] : List Nat) ∧
    textLabelHeight [40] = 10 + (([40] : List Nat).map (fun x => x + 5)).sum + 10 :=
  ⟨by decide, C4_height_amended [40] (by decide)⟩

/-- C5: splitting "Hello<br>World" yields exactly 2 lines, and in the draw
loop every line's horizontal offset is 10 for left alignment,
(696 - lineWidth) // 2 for center, and 696 - lineWidth - 10 for right. -/
theorem C5_layout (metrics : List (Nat × Nat)) :
    (assembleLines helloWorldParts).length = 2 ∧
    (drawPositions "left" metrics).map Prod.fst = metrics.map (fun _ => (10 : Int)) ∧
    (drawPositions "center" metrics).map Prod.fst
      = metrics.map (fun m => Int.fdiv (696 - (m.2 : Int)) 2) ∧
    (drawPositions "right" metrics).map Prod.fst
      = metrics.map (fun m => 696 - (m.2 : Int) - 10) := by
  have hleft : ∀ w : Nat, lineX "left" w = 10 := by
    intro w; unfold lineX; rw [if_neg (by decide), if_neg (by decide)]
  have hcenter : ∀ w : Nat, lineX "center" w = Int.fdiv (696 - (w : Int)) 2 := by
    intro w; unfold lineX; rw [if_pos rfl]
  have hright : ∀ w : Nat, lineX "right" w = 696 - (w : Int) - 10 := by
    intro w; unfold lineX; rw [if_neg (by decide), if_pos rfl]
  refine ⟨by decide, ?_, ?_, ?_⟩
  · rw [drawPositions, drawPositionsFrom_map_fst]
    simp only [hleft]
  · rw [drawPositions, drawPositionsFrom_map_fst]
    simp only [hcenter]
  · rw [drawPositions, drawPositionsFrom_map_fst]
    simp only [hright]

/-- C7: load is total by construction, and a missing file, an unreadable
file, invalid JSON, or a document that is not a mapping all yield the
built-in default configuration. -/
theorem C7_load_defaults (d : Disk) (h : d = Disk.missing ∨ d = Disk.corrupt) :
    loadS d = defaultSettings := by
  rcases h with h | h <;> rw [h] <;> rfl

theorem C7_load_defaults_witness :
    (Disk.missing = Disk.missing ∨ Disk.missing = Disk.corrupt) ∧
    loadS Disk.missing = defaultSettings :=
  ⟨Or.inl rfl, C7_load_defaults Disk.missing (Or.inl rfl)⟩

/-- C10: every loaded configuration has a value at every key that has a
default; for a stored document, keys present in it override the defaults and
keys absent from it fall back to them. -/
theorem C10_defaults_superset (d : Disk) (k : String) :
    (∀ v, defaultSettings k = some v → (loadS d k).isSome = true) ∧
    (∀ m, d = Disk.stored m →
      (∀ v, m k = some v → loadS d k = some v) ∧
      (m k = none → loadS d k = defaultSettings k)) := by
  constructor
  · intro v hv
    cases d with
    | missing => rw [loadS, hv]; rfl
    | corrupt => rw [loadS, hv]; rfl
    | stored m =>
        show (dictUpdate defaultSettings m k).isSome = true
        rw [dictUpdate_apply]
        cases hm : m k with
        | some w => rfl
        | none => rw [hv]; rfl
  · intro m hm
    subst hm
    constructor
    · intro v hv
      show dictUpdate defaultSettings m k = some v
      rw [dictUpdate_apply, hv]
    · intro hv
      show dictUpdate defaultSettings m k = defaultSettings k
      rw [dictUpdate_apply, hv]

theorem C10_defaults_superset_witness :
    loadS (Disk.stored exampleOverride) "font_size"
      = some (SettingValue.prim (PrimValue.num 60)) ∧
    loadS (Disk.stored exampleOverride) "threshold"
      = some (SettingValue.prim (PrimValue.num 70)) := by
  constructor
  · exact ((C10_defaults_superset (Disk.stored exampleOverride) "font_size").2
      exampleOverride rfl).1 _ rfl
  · exact Eq.trans
      (((C10_defaults_superset (Disk.stored exampleOverride) "threshold").2
        exampleOverride rfl).2 rfl) rfl

/-- A settings document whose threshold is 150 (otherwise the defaults). -/
def exampleBadThreshold : SMap :=
  setKey defaultSettings "threshold" (SettingValue.prim (PrimValue.num 150))

/-- A settings document with keep-alive enabled at interval 5. -/
def exampleShortInterval : SMap :=
  setKey (setKey defaultSettings "keep_alive_enabled"
      (SettingValue.prim (PrimValue.boolean true)))
    "keep_alive_interval" (SettingValue.prim (PrimValue.num 5))

/-- C2: after `update_settings(P)` on a store whose merged result validates,
a reload reflects every key of `P` and leaves every other key at its
pre-update value. -/
theorem C2_roundtrip (disk : Disk) (P : SMap) (k : String)
    (hvalid : validateSettings (dictUpdate (loadS disk) P) = true) :
    (∀ v, P k = some v → loadS (update_settings P disk).2 k = some v) ∧
    (P k = none → loadS (update_settings P disk).2 k = loadS disk k) := by
  have hdisk : (update_settings P disk).2 = Disk.stored (dictUpdate (loadS disk) P) := by
    simp [update_settings, save_settings, hvalid]
  rw [hdisk]
  constructor
  · intro v hv
    show dictUpdate defaultSettings (dictUpdate (loadS disk) P) k = some v
    rw [dictUpdate_apply, dictUpdate_apply, hv]
  · intro hv
    show dictUpdate defaultSettings (dictUpdate (loadS disk) P) k = loadS disk k
    rw [dictUpdate_apply, dictUpdate_apply, hv]
    cases hl : loadS disk k with
    | some w => rfl
    | none => exact loadS_eq_none disk k hl

theorem C2_roundtrip_witness :
    validateSettings (dictUpdate (loadS Disk.missing) exampleOverride) = true ∧
    loadS (update_settings exampleOverride Disk.missing).2 "font_size"
      = some (SettingValue.prim (PrimValue.num 60)) ∧
    loadS (update_settings exampleOverride Disk.missing).2 "threshold"
      = loadS Disk.missing "threshold" := by
  refine ⟨by decide, ?_, ?_⟩
  · exact (C2_roundtrip Disk.missing exampleOverride "font_size" (by decide)).1 _ rfl
  · exact (C2_roundtrip Disk.missing exampleOverride "threshold" (by decide)).2 rfl

/-- Validation fails as soon as the threshold check does. -/
theorem validate_false_of_threshold (s : SMap)
    (h : thresholdOK (s "threshold") = false) : validateSettings s = false := by
  unfold validateSettings
  rw [h]
  simp

/-- C3: a configuration whose threshold lies outside [0, 100] is rejected by
save: the result is failure, the disk is unchanged, and no file operation
(temp write or rename) is performed. -/
theorem C3_threshold_reject (s : SMap) (disk : Disk) (t : Int)
    (ht : s "threshold" = some (SettingValue.prim (PrimValue.num t)))
    (hout : t < 0 ∨ 100 < t) :
    save_settings s disk = (false, disk, []) := by
  have hth : thresholdOK (s "threshold") = false := by
    rw [ht]
    show (decide (0 ≤ t) && decide (t ≤ 100)) = false
    rcases hout with h | h
    · have h0 : ¬(0 ≤ t) := by omega
      simp [h0]
    · have h0 : ¬(t ≤ 100) := by omega
      simp [h0]
  simp [save_settings, validate_false_of_threshold s hth]

theorem C3_threshold_reject_witness :
    exampleBadThreshold "threshold" = some (SettingValue.prim (PrimValue.num 150)) ∧
    save_settings exampleBadThreshold Disk.missing = (false, Disk.missing, []) :=
  ⟨rfl, C3_threshold_reject exampleBadThreshold Disk.missing 150 rfl (Or.inr (by decide))⟩

/-- Validation fails as soon as the keep-alive check does. -/
theorem validate_false_of_keepAlive (s : SMap)
    (h : keepAliveOK s = false) : validateSettings s = false := by
  unfold validateSettings
  rw [h]
  simp

/-- C6: a configuration with keep-alive enabled but an interval below 10
seconds, or a printer URI that does not resolve to the network backend, is
rejected as a whole: save fails and the stored document is untouched. -/
theorem C6_keepalive_reject (s : SMap) (disk : Disk)
    (hen : s "keep_alive_enabled" = some (SettingValue.prim (PrimValue.boolean true)))
    (hbad : (∃ i, s "keep_alive_interval" = some (SettingValue.prim (PrimValue.num i))
               ∧ i < 10) ∨
            uriBackend (getString s "printer_uri") ≠ some "network") :
    save_settings s disk = (false, disk, []) := by
  have hka : keepAliveOK s = false := by
    unfold keepAliveOK
    rw [hen]
    rcases hbad with ⟨i, hi, hlt⟩ | hnb
    · rw [hi]
      simp [numValue, truthy, hlt]
    · cases hki : s "keep_alive_interval" with
      | none => simp [truthy]
      | some v =>
          cases hnv : numValue v with
          | none => simp [truthy, hnv]
          | some i =>
              by_cases hlt : i < 10
              · simp [truthy, hnv, hlt]
              · cases hpu : s "printer_uri" with
                | none =>
                    have hg : getString s "printer_uri" = "" := by
                      unfold getString; rw [hpu]
                    simp [truthy, hnv, hlt]
                | some pv =>
                    cases pv with
                    | printerList l =>
                        simp [truthy, hnv, hlt]
                    | prim p =>
                        cases p with
                        | num n => simp [truthy, hnv, hlt]
                        | boolean b => simp [truthy, hnv, hlt]
                        | str u =>
                            have hg : getString s "printer_uri" = u := by
                              unfold getString; rw [hpu]
                            rw [hg] at hnb
                            simp [truthy, hnv, hlt, hnb]
  simp [save_settings, validate_false_of_keepAlive s hka]

theorem C6_keepalive_reject_witness :
    exampleShortInterval "keep_alive_enabled"
      = some (SettingValue.prim (PrimValue.boolean true)) ∧
    save_settings exampleShortInterval Disk.missing = (false, Disk.missing, []) := by
  constructor
  · decide
  · exact C6_keepalive_reject exampleShortInterval Disk.missing (by decide)
      (Or.inl ⟨5, by decide, by decide⟩)

/-- C8: the side-by-side QR layout always has total width at least 696; the
text column (with its two pads) takes `int(total_width * 2/3)` of it and the
QR column (with the remaining pad) the rest; the QR image is resized to a
square exactly filling its column's width; and the QR column sits on the
side named by `qr_position`. -/
theorem C8_side_by_side (qw mtw tth : Nat) (pos : String) :
    696 ≤ (sideBySideLayout qw mtw tth pos).total_width ∧
    (sideBySideLayout qw mtw tth pos).text_area_width + 2 * 20
      = (sideBySideLayout qw mtw tth pos).total_width * 2 / 3 ∧
    (sideBySideLayout qw mtw tth pos).text_area_width
      + (sideBySideLayout qw mtw tth pos).qr_area_width + 3 * 20
      = (sideBySideLayout qw mtw tth pos).total_width ∧
    (sideBySideLayout qw mtw tth pos).qr_size
      = ((sideBySideLayout qw mtw tth pos).qr_area_width,
         (sideBySideLayout qw mtw tth pos).qr_area_width) ∧
    (pos = "left" → (sideBySideLayout qw mtw tth pos).qr_x = 20 ∧
        (sideBySideLayout qw mtw tth pos).text_area_x
          = (sideBySideLayout qw mtw tth pos).qr_area_width + 2 * 20) ∧
    (pos ≠ "left" → (sideBySideLayout qw mtw tth pos).qr_x
          = (sideBySideLayout qw mtw tth pos).text_area_width + 2 * 20 ∧
        (sideBySideLayout qw mtw tth pos).text_area_x = 20) := by
  have h1 : (sideBySideLayout qw mtw tth pos).total_width
      = max (qw + mtw + 20 * 3) 696 := rfl
  have h2 : (sideBySideLayout qw mtw tth pos).text_area_width
      = max (qw + mtw + 20 * 3) 696 * 2 / 3 - 20 * 2 := rfl
  have h3 : (sideBySideLayout qw mtw tth pos).qr_area_width
      = max (qw + mtw + 20 * 3) 696
        - (max (qw + mtw + 20 * 3) 696 * 2 / 3 - 20 * 2) - 20 * 3 := rfl
  have h4 : (sideBySideLayout qw mtw tth pos).qr_x
      = if pos = "left" then 20
        else (sideBySideLayout qw mtw tth pos).text_area_width + 20 * 2 := rfl
  have h5 : (sideBySideLayout qw mtw tth pos).text_area_x
      = if pos = "left" then (sideBySideLayout qw mtw tth pos).qr_area_width + 20 * 2
        else 20 := rfl
  refine ⟨?_, ?_, ?_, rfl, ?_, ?_⟩
  · rw [h1]; omega
  · rw [h2, h1]; omega
  · rw [h2, h3, h1]; omega
  · intro hp
    rw [h4, h5, if_pos hp, if_pos hp]
    exact ⟨rfl, rfl⟩
  · intro hp
    rw [h4, h5, if_neg hp, if_neg hp]
    exact ⟨rfl, rfl⟩

theorem C8_side_by_side_witness :
    696 ≤ (sideBySideLayout 400 300 100 "left").total_width ∧
    (sideBySideLayout 400 300 100 "left").qr_x = 20 ∧
    (sideBySideLayout 400 300 100 "right").qr_x
      = (sideBySideLayout 400 300 100 "right").text_area_width + 2 * 20 :=
  ⟨(C8_side_by_side 400 300 100 "left").1,
   ((C8_side_by_side 400 300 100 "left").2.2.2.2.1 rfl).1,
   ((C8_side_by_side 400 300 100 "right").2.2.2.2.2 (by decide)).1⟩

/-- C9 counterexample: `start_keep_alive` with interval 5 on a fresh store
reports success, but the store afterwards still has keep_alive_enabled =
false — the source discards the Boolean result of `update_settings`, whose
validation rejects the 5-second interval, so nothing is persisted. -/
theorem C9_counterexample :
    (start_keep_alive none none 5 ⟨Disk.missing, false⟩).1 = true ∧
    loadS (start_keep_alive none none 5 ⟨Disk.missing, false⟩).2.disk "keep_alive_enabled"
      = some (SettingValue.prim (PrimValue.boolean false)) := by
  exact ⟨by decide, by decide⟩

/-- C9 (amended): when `start_keep_alive` succeeds AND the merged settings it
hands to `update_settings` pass validation, the store afterwards holds
keep_alive_enabled = true and the chosen interval; and `stop_keep_alive` on a
non-running watchdog returns success and changes nothing. -/
theorem C9_start_persists (uriArg modelArg : Option String) (interval : Int)
    (st : KAState)
    (hsucc : (start_keep_alive uriArg modelArg interval st).1 = true)
    (hvalid : validateSettings (dictUpdate (loadS st.disk)
        (setKey (setKey (loadS st.disk) "keep_alive_enabled"
            (SettingValue.prim (PrimValue.boolean true)))
          "keep_alive_interval" (SettingValue.prim (PrimValue.num interval)))) = true) :
    loadS (start_keep_alive uriArg modelArg interval st).2.disk "keep_alive_enabled"
      = some (SettingValue.prim (PrimValue.boolean true)) ∧
    loadS (start_keep_alive uriArg modelArg interval st).2.disk "keep_alive_interval"
      = some (SettingValue.prim (PrimValue.num interval)) ∧
    ∀ st' : KAState, st'.running = false → stop_keep_alive st' = (true, st') := by
  by_cases hu : resolveField uriArg (loadS st.disk) "printer_uri" = ""
  · exfalso
    unfold start_keep_alive at hsucc
    rw [if_pos hu] at hsucc
    cases hsucc
  by_cases hm : resolveField modelArg (loadS st.disk) "printer_model" = ""
  · exfalso
    unfold start_keep_alive at hsucc
    rw [if_neg hu, if_pos hm] at hsucc
    cases hsucc
  have hst : (start_keep_alive uriArg modelArg interval st).2.disk
      = Disk.stored (dictUpdate (loadS st.disk)
          (setKey (setKey (loadS st.disk) "keep_alive_enabled"
              (SettingValue.prim (PrimValue.boolean true)))
            "keep_alive_interval" (SettingValue.prim (PrimValue.num interval)))) := by
    unfold start_keep_alive
    rw [if_neg hu, if_neg hm]
    simp [update_settings, save_settings, hvalid]
  refine ⟨?_, ?_, ?_⟩
  · rw [hst, loadS_stored, dictUpdate_apply, dictUpdate_apply]
    simp [setKey]
  · rw [hst, loadS_stored, dictUpdate_apply, dictUpdate_apply]
    simp [setKey]
  · intro st' h
    simp [stop_keep_alive, h]

theorem C9_start_persists_witness :
    loadS (start_keep_alive none none 60 ⟨Disk.missing, false⟩).2.disk "keep_alive_enabled"
      = some (SettingValue.prim (PrimValue.boolean true)) ∧
    loadS (start_keep_alive none none 60 ⟨Disk.missing, false⟩).2.disk "keep_alive_interval"
      = some (SettingValue.prim (PrimValue.num 60)) ∧
    stop_keep_alive ⟨Disk.missing, false⟩ = (true, ⟨Disk.missing, false⟩) := by
  have h := C9_start_persists none none 60 ⟨Disk.missing, false⟩ (by decide) (by decide)
  exact ⟨h.1, h.2.1, h.2.2 ⟨Disk.missing, false⟩ rfl⟩

end BrotherQL
